import Mathlib

/-!
Verification of the goadmin administrative console core: the generic DAO
layer over attribute bags (src/myapp/dao_sqlite.go), the bootstrap
reconciler (src/myapp/bootstrap.go, initDaos) and the protected-entity
guards in the group/user management handlers.

Machine entities (Group, User), well-known constants and the UserDao
sqlite implementation are not part of the two provided source files; where
needed they are modelled from the spec and marked as such in their doc
comments. Everything else is a direct shallow embedding of the Go source.
-/

namespace Myapp

/-- An attribute bag: an ordered mapping from field name to (string) value,
the storage-neutral record representation used between domain structs and
raw rows. -/
abbrev Bag := List (String × String)

/-- Storage-layer errors are carried as their message text, mirroring the
Go error values whose Error() string is interpolated by the callers. -/
abbrev Err := String

/-- Models the Go standard library lower-casing of a character,
restricted to ASCII (the identifiers of this system are ASCII). -/
def charToLower (c : Char) : Char :=
  if c.toNat ≥ 65 && c.toNat ≤ 90 then Char.ofNat (c.toNat + 32) else c

/-- Models Go strings.ToLower (ASCII fragment), character-wise. -/
def strToLower (s : String) : String := ⟨s.data.map charToLower⟩

/-- Whitespace test behind Go strings.TrimSpace (ASCII fragment). -/
def charIsSpace (c : Char) : Bool :=
  c == ' ' || c == '\t' || c == '\n' || c == '\r'

/-- Models Go strings.TrimSpace (ASCII fragment): drops leading and
trailing whitespace. -/
def strTrim (s : String) : String :=
  ⟨((s.data.dropWhile charIsSpace).reverse.dropWhile charIsSpace).reverse⟩

/-- Reads an attribute from a bag (models godal GboGetAttr): the value of
the first entry with the given field name, if any. -/
def gboGetAttr (b : Bag) (field : String) : Option String :=
  (b.find? (fun p => p.1 == field)).map (fun p => p.2)

/-- Sets an attribute in a bag (models godal GboSetAttr): replaces the
value when the field is present, otherwise appends the entry. -/
def gboSetAttr (b : Bag) (field v : String) : Bag :=
  if b.any (fun p => p.1 == field) then
    b.map (fun p => if p.1 == field then (field, v) else p)
  else b ++ [(field, v)]

/-- First-match lookup in an association list of names. -/
def lookupStr (m : List (String × String)) (k : String) : Option String :=
  (m.find? (fun p => p.1 == k)).map (fun p => p.2)

/-- Renames the keys of a bag through a translation table (models the
GenericRowMapperSql name translation); unmapped names pass through. -/
def translateRow (m : List (String × String)) (b : Bag) : Bag :=
  b.map (fun p => ((lookupStr m p.1).getD p.1, p.2))

/-- Modelled from the spec: domain entity Group, attributes Id (unique
identifier, lower-cased, primary key) and Name (display label). The Go
struct is declared outside the provided source files. -/
structure Group where
  Id : String
  Name : String
deriving DecidableEq

/-- Modelled from the spec: domain entity User with Username, Password
(stored as a one-way transform), Name and GroupId. The Go struct is
declared outside the provided source files. -/
structure User where
  Username : String
  Password : String
  Name : String
  GroupId : String
deriving DecidableEq

/-- Modelled from the spec: the well-known system group id constant
(declared outside the provided source files); group ids are recorded by
the spec as lower-cased identifiers. -/
def SystemGroupId : String := "system"

/-- Modelled from the spec: the well-known admin username constant
(declared outside the provided source files; the double n follows the
identifier used by bootstrap.go). -/
def AdminUserUsernname : String := "admin"

/-- Modelled from the spec: the fixed display name of the admin user
(declared outside the provided source files). -/
def AdminUserName : String := "Administrator"

/-- Modelled from the spec: the one-way, username-keyed password-encoding
collaborator (out of scope for the core); modelled as an injective tagging
function. -/
def encryptPassword (username password : String) : String :=
  "enc[" ++ username ++ "|" ++ password ++ "]"

/-- Column name for the group id (dao_sqlite.go, colGroupId). -/
def colGroupId : String := "gid"

/-- Column name for the group display name (dao_sqlite.go, colGroupName). -/
def colGroupName : String := "gname"

/-- Modelled from the spec: domain field name of Group.Id (constant
declared outside the provided source files). -/
def fieldGroupId : String := "id"

/-- Modelled from the spec: domain field name of Group.Name (constant
declared outside the provided source files). -/
def fieldGroupName : String := "name"

/-- Ordered column list of the group table (dao_sqlite.go, colsGroup). -/
def colsGroup : List String := [colGroupId, colGroupName]

/-- Field-to-column translation table of the group table (dao_sqlite.go,
mapFieldToColNameGroup), in source order. -/
def mapFieldToColNameGroup : List (String × String) :=
  [(fieldGroupId, colGroupId), (fieldGroupName, colGroupName)]

/-- Column-to-field translation table of the group table (dao_sqlite.go,
mapColNameToFieldGroup), in source order. -/
def mapColNameToFieldGroup : List (String × String) :=
  [(colGroupId, fieldGroupId), (colGroupName, fieldGroupName)]

/-- Column name for the username (dao_sqlite.go, colUserUsername). -/
def colUserUsername : String := "uname"

/-- Column name for the password (dao_sqlite.go, colUserPassword). -/
def colUserPassword : String := "upwd"

/-- Column name for the user display name (dao_sqlite.go, colUserName). -/
def colUserName : String := "display_name"

/-- Column name for the group reference (dao_sqlite.go, colUserGroupId). -/
def colUserGroupId : String := "gid"

/-- Modelled from the spec: domain field name of User.Username. -/
def fieldUserUsername : String := "username"

/-- Modelled from the spec: domain field name of User.Password. -/
def fieldUserPassword : String := "password"

/-- Modelled from the spec: domain field name of User.Name. -/
def fieldUserName : String := "name"

/-- Modelled from the spec: domain field name of User.GroupId. -/
def fieldUserGroupId : String := "group_id"

/-- Ordered column list of the user table (dao_sqlite.go, colsUser). -/
def colsUser : List String :=
  [colUserUsername, colUserPassword, colUserName, colUserGroupId]

/-- Field-to-column translation table of the user table (dao_sqlite.go,
mapFieldToColNameUser), in source order. -/
def mapFieldToColNameUser : List (String × String) :=
  [(fieldUserUsername, colUserUsername), (fieldUserPassword, colUserPassword),
   (fieldUserName, colUserName), (fieldUserGroupId, colUserGroupId)]

/-- Column-to-field translation table of the user table (dao_sqlite.go,
mapColNameToFieldUser), in source order. -/
def mapColNameToFieldUser : List (String × String) :=
  [(colUserUsername, fieldUserUsername), (colUserPassword, fieldUserPassword),
   (colUserName, fieldUserName), (colUserGroupId, fieldUserGroupId)]

/-!
Generic DAO engine (spec section 4.2; the godal engine is an external
dependency of the source files, so its CRUD semantics are modelled from
the spec): a table is a list of column-keyed rows; FetchOne is point
lookup by primary-key equality, Create inserts unless the key already
exists (duplicate key yields a ConstraintViolation error), Delete removes
the row by key.
-/

/-- Engine FetchOne: first row whose key column holds the key value. -/
def gdaoFetchOne (table : List Bag) (keyCol keyVal : String) : Option Bag :=
  table.find? (fun row => gboGetAttr row keyCol == some keyVal)

/-- Engine Create: inserts the row unless its primary key already exists;
returns the new table, the rows-affected count and an optional error. -/
def gdaoCreate (table : List Bag) (keyCol : String) (row : Bag) :
    List Bag × Nat × Option Err :=
  match gdaoFetchOne table keyCol ((gboGetAttr row keyCol).getD "") with
  | some _ => (table, 0, some "ConstraintViolation")
  | none => (table ++ [row], 1, none)

/-- Engine Delete: removes the rows matching the key; returns the new
table and the rows-affected count. -/
def gdaoDelete (table : List Bag) (keyCol keyVal : String) :
    List Bag × Nat :=
  let kept := table.filter (fun row => !(gboGetAttr row keyCol == some keyVal))
  (kept, table.length - kept.length)

/-- GroupDaoSqlite.toBo on a non-nil generic bo (dao_sqlite.go lines
113-117): builds the Group from the two domain fields of the bag. The Go
code reads the attributes unsafely; bags reaching it always carry both
fields, the default covers the others. -/
def GroupDaoSqlite.toBoCore (b : Bag) : Group :=
  { Id := (gboGetAttr b fieldGroupId).getD ""
    Name := (gboGetAttr b fieldGroupName).getD "" }

/-- GroupDaoSqlite.toBo (dao_sqlite.go lines 109-118): nil in, nil out;
otherwise convert the bag. -/
def GroupDaoSqlite.toBo (gbo : Option Bag) : Option Group :=
  gbo.map GroupDaoSqlite.toBoCore

/-- GroupDaoSqlite.toGbo on a non-nil Group (dao_sqlite.go lines 121-129):
a fresh generic bo with the two domain fields set. -/
def GroupDaoSqlite.toGbo (bo : Group) : Bag :=
  gboSetAttr (gboSetAttr [] fieldGroupId bo.Id) fieldGroupName bo.Name

/-- GroupDaoSqlite.Get as a function of the engine fetch outcome
(dao_sqlite.go lines 142-148): a fetch error is returned with a nil group;
otherwise toBo of the fetched bo with a nil error. -/
def GroupDaoSqlite.Get (fetched : Option Bag × Option Err) :
    Option Group × Option Err :=
  match fetched.2 with
  | some e => (none, some e)
  | none => (GroupDaoSqlite.toBo fetched.1, none)

/-- The group-table fetch feeding GroupDaoSqlite.Get: engine lookup with
the key filter on colGroupId and the id passed verbatim (dao_sqlite.go
line 143), with the row translated back to domain field names by the row
mapper. -/
def groupGdaoFetchOne (store : List Bag) (id : String) : Option Bag :=
  (gdaoFetchOne store colGroupId id).map (translateRow mapColNameToFieldGroup)

/-- GroupDaoSqlite.Get against an in-memory group table with no transport
failure. -/
def groupStoreGet (store : List Bag) (id : String) : Option Group :=
  (GroupDaoSqlite.Get (groupGdaoFetchOne store id, none)).1

/-- GroupDaoSqlite.Create (dao_sqlite.go lines 132-139): normalizes the id
(trim then lower-case) and the name (trim), converts to a bag, translates
to column names, and calls the engine Create; reports whether a row was
inserted. -/
def GroupDaoSqlite.Create (store : List Bag) (id name : String) :
    List Bag × Bool × Option Err :=
  let bo : Group := { Id := strToLower (strTrim id), Name := strTrim name }
  let r := gdaoCreate store colGroupId
    (translateRow mapFieldToColNameGroup (GroupDaoSqlite.toGbo bo))
  (r.1, decide (0 < r.2.1), r.2.2)

/-- GroupDaoSqlite.Delete (spec section 4.3: Delete calls the engine
delete using the entity key): removes the group row by id; reports whether
a row was removed. -/
def GroupDaoSqlite.Delete (store : List Bag) (bo : Group) :
    List Bag × Bool :=
  let r := gdaoDelete store colGroupId bo.Id
  (r.1, decide (0 < r.2))

/-- Modelled from the spec: UserDaoSqlite.toBo on a non-nil generic bo
(the user DAO methods are declared outside the provided source files;
spec section 4.3, struct-bag conversion mirrors the group DAO). -/
def UserDaoSqlite.toBoCore (b : Bag) : User :=
  { Username := (gboGetAttr b fieldUserUsername).getD ""
    Password := (gboGetAttr b fieldUserPassword).getD ""
    Name := (gboGetAttr b fieldUserName).getD ""
    GroupId := (gboGetAttr b fieldUserGroupId).getD "" }

/-- Modelled from the spec: UserDaoSqlite.toGbo on a non-nil User. -/
def UserDaoSqlite.toGbo (bo : User) : Bag :=
  gboSetAttr (gboSetAttr (gboSetAttr (gboSetAttr []
    fieldUserUsername bo.Username) fieldUserPassword bo.Password)
    fieldUserName bo.Name) fieldUserGroupId bo.GroupId

/-- Modelled from the spec: UserDaoSqlite.Get against an in-memory user
table (point lookup by username passed verbatim into the key filter,
mirroring the group DAO; nil result plus nil error signals not found). -/
def userStoreGet (store : List Bag) (username : String) : Option User :=
  ((gdaoFetchOne store colUserUsername username).map
    (translateRow mapColNameToFieldUser)).map UserDaoSqlite.toBoCore

/-- Modelled from the spec: UserDaoSqlite.Create (username, password,
name, groupId); identifiers are normalized by trimming whitespace and
lower-casing, the display name is trimmed, the already-encoded password is
stored as given. -/
def UserDaoSqlite.Create (store : List Bag)
    (username password name groupId : String) :
    List Bag × Bool × Option Err :=
  let bo : User :=
    { Username := strToLower (strTrim username)
      Password := password
      Name := strTrim name
      GroupId := strToLower (strTrim groupId) }
  let r := gdaoCreate store colUserUsername
    (translateRow mapFieldToColNameUser (UserDaoSqlite.toGbo bo))
  (r.1, decide (0 < r.2.1), r.2.2)

/-- Modelled from the spec: UserDaoSqlite.Delete removes the user row by
username. -/
def UserDaoSqlite.Delete (store : List Bag) (bo : User) :
    List Bag × Bool :=
  let r := gdaoDelete store colUserUsername bo.Username
  (r.1, decide (0 < r.2))

/-- The persisted state: the group table and the user table. -/
structure DB where
  groups : List Bag
  users : List Bag
deriving DecidableEq

/-- Abstract GroupDao interface (bootstrap.go programs against the
GroupDao interface; the sqlite and pgsql implementations are
interchangeable): Get returns an optional group and an optional error,
Create returns the updated state, whether a row was inserted, and an
optional error. -/
structure GroupDaoI (σ : Type) where
  Get : σ → String → Option Group × Option Err
  Create : σ → String → String → σ × Bool × Option Err

/-- Abstract UserDao interface, mirroring GroupDaoI with the four-argument
Create of bootstrap.go (username, password, name, group). -/
structure UserDaoI (σ : Type) where
  Get : σ → String → Option User × Option Err
  Create : σ → String → String → String → String → σ × Bool × Option Err

/-- Outcome of a bootstrap run: normal return with the final state, or
process abort via panic with the panic message. -/
inductive Outcome (σ : Type) where
  | ok : σ → Outcome σ
  | aborted : Err → Outcome σ
deriving DecidableEq

/-- The reconciliation part of initDaos (bootstrap.go lines 141-170),
parameterized by the DAO implementations: fetch the system group, panic on
a fetch error, create it when absent and panic on a creation error (a
creation that reports no error but no inserted row is only logged); then
the same for the admin user, created with the fixed default password and
attached to the system group. -/
def initDaos {σ : Type} (gdao : GroupDaoI σ) (udao : UserDaoI σ)
    (s : σ) : Outcome σ :=
  match gdao.Get s SystemGroupId with
  | (_, some e) =>
    .aborted ("error while getting group [" ++ SystemGroupId ++ "]: " ++ e)
  | (systemGroup, none) =>
    let afterGroup : Outcome σ :=
      match systemGroup with
      | some _ => .ok s
      | none =>
        match gdao.Create s SystemGroupId "System User Group" with
        | (_, _, some e) =>
          .aborted ("error while creating group [" ++ SystemGroupId ++ "]: " ++ e)
        | (s1, _, none) => .ok s1
    match afterGroup with
    | .aborted m => .aborted m
    | .ok s1 =>
      match udao.Get s1 AdminUserUsernname with
      | (_, some e) =>
        .aborted ("error while getting user [" ++ AdminUserUsernname ++ "]: " ++ e)
      | (adminUser, none) =>
        match adminUser with
        | some _ => .ok s1
        | none =>
          match udao.Create s1 AdminUserUsernname
              (encryptPassword AdminUserUsernname "s3cr3t")
              AdminUserName SystemGroupId with
          | (_, _, some e) =>
            .aborted ("error while creating user [" ++ AdminUserUsernname ++ "]: " ++ e)
          | (s2, _, none) => .ok s2

/-- The sqlite GroupDao over the in-memory DB (no transport failures in
the pure model). -/
def sqliteGroupDao : GroupDaoI DB where
  Get := fun db id => (groupStoreGet db.groups id, none)
  Create := fun db id name =>
    let r := GroupDaoSqlite.Create db.groups id name
    ({ db with groups := r.1 }, r.2.1, r.2.2)

/-- Modelled from the spec: the internationalized message lookup is an
out-of-scope collaborator; modelled as tagging the message key with its
arguments. -/
def myI18nText (key : String) (args : List String) : String :=
  String.intercalate ":" (key :: args)

/-- checkCpDeleteGroup (bootstrap.go lines 538-555) as a function of the
session current user (with its fetch error), the id query parameter and
the group table: error when the current-user fetch failed, when the
current user is absent or outside the system group, when the target group
is not found, or when the target group id is the system group id;
otherwise the group to delete. -/
def checkCpDeleteGroup (currentUser : Option User × Option Err)
    (gid : String) (dbGroups : List Bag) : Except String Group :=
  match currentUser with
  | (_, some e) => .error (myI18nText "error_db_101" ["current_user/" ++ e])
  | (none, none) => .error (myI18nText "error_no_permission" [])
  | (some u, none) =>
    if u.GroupId ≠ SystemGroupId then
      .error (myI18nText "error_no_permission" [])
    else
      match groupStoreGet dbGroups gid with
      | none => .error (myI18nText "error_group_not_found" [gid])
      | some group =>
        if group.Id = SystemGroupId then
          .error (myI18nText "error_delete_system_group" [gid])
        else .ok group

/-- actionCpDeleteGroupSubmit (bootstrap.go lines 570-584): on a check
error, redirect without touching the store; otherwise call
GroupDao.Delete on the checked group. Returns the new state and the group
passed to Delete, if any. -/
def actionCpDeleteGroupSubmit (currentUser : Option User × Option Err)
    (gid : String) (db : DB) : DB × Option Group :=
  match checkCpDeleteGroup currentUser gid db.groups with
  | .error _ => (db, none)
  | .ok group =>
    ({ db with groups := (GroupDaoSqlite.Delete db.groups group).1 },
     some group)

/-- The change-password form fields. -/
structure PwForm where
  currentPassword : String
  password : String
  password2 : String

/-- Outcome of the change-password flow: redirect to the profile page, or
render the profile page with an optional error message; carries the user
passed to UserDao.Update, if any. -/
inductive ChangePwOutcome where
  | redirectProfile : ChangePwOutcome
  | rendered : String → Option User → ChangePwOutcome
deriving DecidableEq

/-- actionCpChangePasswordSubmit (bootstrap.go lines 344-397) as a
function of the session current user and the parsed form: error when the
current-user fetch failed; redirect when no current user; reject the
system admin account; then verify the current password, require a
non-empty, repeated new password, and update the user with the re-encoded
password. The form-parse and Update-error branches add nothing to the
verified guards and are omitted. -/
def actionCpChangePasswordSubmit (currentUser : Option User × Option Err)
    (form : PwForm) : ChangePwOutcome :=
  match currentUser with
  | (_, some e) =>
    .rendered (myI18nText "error_db_101" ["current_user/" ++ e]) none
  | (none, none) => .redirectProfile
  | (some u, none) =>
    if u.Username = AdminUserUsernname then
      .rendered "Cannot change system admin account\x27s password" none
    else
      let currentPwd := strTrim form.currentPassword
      if encryptPassword u.Username currentPwd ≠ u.Password then
        .rendered (myI18nText "error_password_not_matched" []) none
      else
        let pwd := strTrim form.password
        let pwd2 := strTrim form.password2
        if pwd = "" then
          .rendered (myI18nText "error_empty_user_password" []) none
        else if pwd ≠ pwd2 then
          .rendered (myI18nText "error_mismatched_passwords" []) none
        else
          .rendered "" (some { u with Password := encryptPassword u.Username pwd })

/-- checkCpDeleteUser (bootstrap.go lines 780-797): error when the
current-user fetch failed, when the current user is absent or outside the
system group, when the target user (looked up by the u query parameter) is
not found, or when the targeted username is the admin username; otherwise
the user to delete. -/
def checkCpDeleteUser (currentUser : Option User × Option Err)
    (username : String) (dbUsers : List Bag) : Except String User :=
  match currentUser with
  | (_, some e) => .error (myI18nText "error_db_101" ["current_user/" ++ e])
  | (none, none) => .error (myI18nText "error_no_permission" [])
  | (some cu, none) =>
    if cu.GroupId ≠ SystemGroupId then
      .error (myI18nText "error_no_permission" [])
    else
      match userStoreGet dbUsers username with
      | none => .error (myI18nText "error_user_not_found" [username])
      | some user =>
        if username = AdminUserUsernname then
          .error (myI18nText "error_delete_system_user" [username])
        else .ok user

/-- actionCpDeleteUserSubmit (bootstrap.go lines 812-820): on a check
error, redirect without touching the store; otherwise call UserDao.Delete
on the checked user. Returns the new state and the user passed to Delete,
if any. -/
def actionCpDeleteUserSubmit (currentUser : Option User × Option Err)
    (username : String) (db : DB) : DB × Option User :=
  match checkCpDeleteUser currentUser username db.users with
  | .error _ => (db, none)
  | .ok user =>
    ({ db with users := (UserDaoSqlite.Delete db.users user).1 }, some user)

/-- The sqlite UserDao over the in-memory DB. -/
def sqliteUserDao : UserDaoI DB where
  Get := fun db username => (userStoreGet db.users username, none)
  Create := fun db username password name groupId =>
    let r := UserDaoSqlite.Create db.users username password name groupId
    ({ db with users := r.1 }, r.2.1, r.2.2)

/-!
Helper lemmas about association-list lookup.
-/

/-- A successful lookup exhibits a member of the association list. -/
theorem lookupStr_mem {m : List (String × String)} {k v : String}
    (h : lookupStr m k = some v) : (k, v) ∈ m := by
  unfold lookupStr at h
  cases hf : m.find? (fun p => p.1 == k) with
  | none => rw [hf] at h; simp at h
  | some p =>
    rw [hf] at h
    obtain ⟨pk, pv⟩ := p
    have hp := List.find?_some hf
    have hm := List.mem_of_find?_eq_some hf
    simp only [beq_iff_eq] at hp
    simp at h
    subst hp
    subst h
    exact hm

/-- Lookup on a cons cell: hit the head key or continue in the tail. -/
theorem lookupStr_cons (a b f : String) (tl : List (String × String)) :
    lookupStr ((a, b) :: tl) f = if a = f then some b else lookupStr tl f := by
  unfold lookupStr
  by_cases h : a = f
  · rw [List.find?_cons_of_pos _ (by simpa using h), if_pos h]
    rfl
  · rw [List.find?_cons_of_neg _ (by simpa using h), if_neg h]

/-- For an association list with no duplicate keys and no duplicate
values, looking up a key in the list and looking up its value in the
swapped list are mutually inverse. -/
theorem lookupStr_swap_iff (m : List (String × String))
    (hk : (m.map Prod.fst).Nodup) (hv : (m.map Prod.snd).Nodup)
    (f c : String) :
    lookupStr m f = some c ↔
      lookupStr (m.map (fun p => (p.2, p.1))) c = some f := by
  induction m with
  | nil => simp [lookupStr]
  | cons hd tl ih =>
    obtain ⟨a, b⟩ := hd
    simp only [List.map_cons, List.nodup_cons] at hk hv
    obtain ⟨hka, hk2⟩ := hk
    obtain ⟨hvb, hv2⟩ := hv
    rw [List.map_cons, lookupStr_cons, lookupStr_cons]
    by_cases haf : a = f
    · subst haf
      rw [if_pos rfl]
      by_cases hbc : b = c
      · subst hbc
        rw [if_pos rfl]
        simp
      · rw [if_neg hbc]
        constructor
        · intro h
          exact absurd (Option.some.inj h) hbc
        · intro h
          have hmem := lookupStr_mem h
          obtain ⟨⟨p1, p2⟩, hp, hpe⟩ := List.mem_map.mp hmem
          simp only [Prod.mk.injEq] at hpe
          obtain ⟨h1, h2⟩ := hpe
          subst h1
          subst h2
          exact absurd (List.mem_map.mpr ⟨(p1, p2), hp, rfl⟩) hka
    · rw [if_neg haf]
      by_cases hbc : b = c
      · rw [if_pos hbc]
        subst hbc
        constructor
        · intro h
          have hmem := lookupStr_mem h
          exact absurd (List.mem_map.mpr ⟨(f, b), hmem, rfl⟩) hvb
        · intro h
          exact absurd (Option.some.inj h) haf
      · rw [if_neg hbc]
        exact ih hk2 hv2

/-- C8: for each entity type (Group and User), the field-to-column map and
the column-to-field map are mutual inverses — the column-to-field list is
exactly the swapped field-to-column list, both key sets and value sets are
duplicate-free, and lookups in the two tables are mutually inverse — and
the ordered column list (colsGroup, colsUser) is exactly the column side
of both maps, each column exactly once. -/
theorem fieldColumnMapsConsistent :
    (mapFieldToColNameGroup.map (fun p => (p.2, p.1)) = mapColNameToFieldGroup
      ∧ (mapFieldToColNameGroup.map Prod.fst).Nodup
      ∧ (mapFieldToColNameGroup.map Prod.snd).Nodup
      ∧ colsGroup = mapFieldToColNameGroup.map Prod.snd
      ∧ colsGroup = mapColNameToFieldGroup.map Prod.fst
      ∧ colsGroup.Nodup
      ∧ ∀ f c, lookupStr mapFieldToColNameGroup f = some c ↔
          lookupStr mapColNameToFieldGroup c = some f)
    ∧ (mapFieldToColNameUser.map (fun p => (p.2, p.1)) = mapColNameToFieldUser
      ∧ (mapFieldToColNameUser.map Prod.fst).Nodup
      ∧ (mapFieldToColNameUser.map Prod.snd).Nodup
      ∧ colsUser = mapFieldToColNameUser.map Prod.snd
      ∧ colsUser = mapColNameToFieldUser.map Prod.fst
      ∧ colsUser.Nodup
      ∧ ∀ f c, lookupStr mapFieldToColNameUser f = some c ↔
          lookupStr mapColNameToFieldUser c = some f) := by
  refine ⟨⟨by decide, by decide, by decide, by decide, by decide, by decide, ?_⟩,
    ⟨by decide, by decide, by decide, by decide, by decide, by decide, ?_⟩⟩
  · intro f c
    have h := lookupStr_swap_iff mapFieldToColNameGroup (by decide) (by decide) f c
    rwa [show mapFieldToColNameGroup.map (fun p => (p.2, p.1)) =
      mapColNameToFieldGroup by decide] at h
  · intro f c
    have h := lookupStr_swap_iff mapFieldToColNameUser (by decide) (by decide) f c
    rwa [show mapFieldToColNameUser.map (fun p => (p.2, p.1)) =
      mapColNameToFieldUser by decide] at h

/-- C4: GroupDao.Get signals not-found as a nil group with a nil error
(never as an error value): its error equals the underlying fetch error,
a fetch error yields a nil group, and in the error-free case the group is
nil exactly when the fetch found no row. -/
theorem getErrorProtocol (fetched : Option Bag × Option Err) :
    (GroupDaoSqlite.Get fetched).2 = fetched.2
    ∧ (∀ e, fetched.2 = some e → (GroupDaoSqlite.Get fetched).1 = none)
    ∧ (fetched.2 = none →
        ((GroupDaoSqlite.Get fetched).1 = none ↔ fetched.1 = none)) := by
  obtain ⟨b, err⟩ := fetched
  cases err with
  | none =>
    refine ⟨rfl, ?_, ?_⟩
    · intro e h
      cases h
    · intro _
      cases b <;> simp [GroupDaoSqlite.Get, GroupDaoSqlite.toBo]
  | some e =>
    refine ⟨rfl, fun _ _ => rfl, ?_⟩
    intro h
    cases h

/-- A storage-layer failure propagates out of GroupDao.Get with a nil
group result. -/
theorem getErrorProtocol_witness :
    (GroupDaoSqlite.Get (none, some "storage failure")).1 = none :=
  (getErrorProtocol (none, some "storage failure")).2.1 "storage failure" rfl

/-- C9: the bag-struct conversion round-trips losslessly: toGbo then toBo
restores any Group unchanged, and on any bag holding the two group fields,
toBo then toGbo preserves both attribute values. -/
theorem bagStructRoundTrip (g : Group) (b : Bag) (i n : String)
    (h1 : gboGetAttr b fieldGroupId = some i)
    (h2 : gboGetAttr b fieldGroupName = some n) :
    GroupDaoSqlite.toBo (some (GroupDaoSqlite.toGbo g)) = some g
    ∧ gboGetAttr (GroupDaoSqlite.toGbo (GroupDaoSqlite.toBoCore b))
        fieldGroupId = some i
    ∧ gboGetAttr (GroupDaoSqlite.toGbo (GroupDaoSqlite.toBoCore b))
        fieldGroupName = some n := by
  have hb : GroupDaoSqlite.toBoCore b = { Id := i, Name := n } := by
    simp [GroupDaoSqlite.toBoCore, h1, h2]
  refine ⟨?_, ?_, ?_⟩
  · cases g
    simp [GroupDaoSqlite.toBo, GroupDaoSqlite.toBoCore, GroupDaoSqlite.toGbo,
      gboSetAttr, gboGetAttr, fieldGroupId, fieldGroupName]
  · rw [hb]
    simp [GroupDaoSqlite.toGbo, gboSetAttr, gboGetAttr, fieldGroupId,
      fieldGroupName]
  · rw [hb]
    simp [GroupDaoSqlite.toGbo, gboSetAttr, gboGetAttr, fieldGroupId,
      fieldGroupName]

/-- Round-trip checked on a concrete group and a concrete bag. -/
theorem bagStructRoundTrip_witness :
    GroupDaoSqlite.toBo (some (GroupDaoSqlite.toGbo { Id := "g1", Name := "Group 1" }))
      = some { Id := "g1", Name := "Group 1" }
    ∧ gboGetAttr (GroupDaoSqlite.toGbo (GroupDaoSqlite.toBoCore
        [("id", "g1"), ("name", "Group 1")])) fieldGroupId = some "g1" :=
  ⟨(bagStructRoundTrip { Id := "g1", Name := "Group 1" }
      [("id", "g1"), ("name", "Group 1")] "g1" "Group 1" (by decide) (by decide)).1,
   (bagStructRoundTrip { Id := "g1", Name := "Group 1" }
      [("id", "g1"), ("name", "Group 1")] "g1" "Group 1" (by decide) (by decide)).2.1⟩

/-- C5 fails as stated: ("A", "g") is a valid pair absent from the empty
store, its creation succeeds (row inserted, no error), yet Get on the
verbatim id "A" returns nil rather than the created group, because Create
stored the id lower-cased. -/
theorem createThenGet_counterexample :
    (GroupDaoSqlite.Create [] "A" "g").2.1 = true
    ∧ (GroupDaoSqlite.Create [] "A" "g").2.2 = none
    ∧ groupStoreGet (GroupDaoSqlite.Create [] "A" "g").1 "A" = none := by
  decide

/-- C5 (amended): for every (id, name) pair whose id is already trimmed
and lower-cased and whose name is already trimmed, with the id not present
in the store, Create reports an inserted row with no error and Get(id)
then returns a Group with exactly that id and name. -/
theorem createThenGetNormalized (store : List Bag) (id name : String)
    (h1 : strToLower (strTrim id) = id) (h2 : strTrim name = name)
    (h3 : gdaoFetchOne store colGroupId id = none) :
    (GroupDaoSqlite.Create store id name).2.1 = true
    ∧ (GroupDaoSqlite.Create store id name).2.2 = none
    ∧ groupStoreGet (GroupDaoSqlite.Create store id name).1 id
        = some { Id := id, Name := name } := by
  have hrow : translateRow mapFieldToColNameGroup
      (GroupDaoSqlite.toGbo { Id := id, Name := name })
      = [(colGroupId, id), (colGroupName, name)] := by
    simp [GroupDaoSqlite.toGbo, gboSetAttr, translateRow, lookupStr,
      mapFieldToColNameGroup, fieldGroupId, fieldGroupName, colGroupId,
      colGroupName]
  have hkey : gboGetAttr [(colGroupId, id), (colGroupName, name)] colGroupId
      = some id := by
    simp [gboGetAttr]
  have hcreate : GroupDaoSqlite.Create store id name
      = (store ++ [[(colGroupId, id), (colGroupName, name)]], true, none) := by
    simp only [GroupDaoSqlite.Create, h1, h2, hrow, gdaoCreate, hkey,
      Option.getD_some, h3]
    rfl
  rw [hcreate]
  refine ⟨rfl, rfl, ?_⟩
  simp only [groupStoreGet, GroupDaoSqlite.Get, groupGdaoFetchOne,
    gdaoFetchOne, List.find?_append]
  rw [show store.find? (fun row => gboGetAttr row colGroupId == some id)
      = none from h3]
  simp [hkey, translateRow, lookupStr, mapColNameToFieldGroup,
    GroupDaoSqlite.toBo, GroupDaoSqlite.toBoCore, gboGetAttr, colGroupId,
    colGroupName, fieldGroupId, fieldGroupName]

/-- The amended C5 checked on a concrete normalized pair. -/
theorem createThenGetNormalized_witness :
    groupStoreGet (GroupDaoSqlite.Create [] "g1" "Group 1").1 "g1"
      = some { Id := "g1", Name := "Group 1" } :=
  (createThenGetNormalized [] "g1" "Group 1" (by decide) (by decide)
    (by decide)).2.2

/-- C10: GroupDao.Get performs no normalization on its key: for an id
changed by trimming or lower-casing and not literally present in the
store, Get(id) returns nil even immediately after Create(id, name) on that
store (the created row is stored under the normalized id). -/
theorem getMissesNonNormalizedId (store : List Bag) (id name : String)
    (h1 : strToLower (strTrim id) ≠ id)
    (h3 : gdaoFetchOne store colGroupId id = none) :
    groupStoreGet (GroupDaoSqlite.Create store id name).1 id = none := by
  have hkey : gboGetAttr (translateRow mapFieldToColNameGroup
      (GroupDaoSqlite.toGbo { Id := strToLower (strTrim id), Name := strTrim name }))
      colGroupId = some (strToLower (strTrim id)) := by
    simp [GroupDaoSqlite.toGbo, gboSetAttr, translateRow, lookupStr,
      mapFieldToColNameGroup, fieldGroupId, fieldGroupName, colGroupId,
      colGroupName, gboGetAttr]
  simp only [GroupDaoSqlite.Create, gdaoCreate, hkey, Option.getD_some]
  cases hdup : gdaoFetchOne store colGroupId (strToLower (strTrim id)) with
  | some r =>
    simp only [groupStoreGet, GroupDaoSqlite.Get, groupGdaoFetchOne, h3,
      Option.map_none]
    rfl
  | none =>
    simp only [groupStoreGet, GroupDaoSqlite.Get, groupGdaoFetchOne,
      gdaoFetchOne, List.find?_append]
    rw [show store.find? (fun row => gboGetAttr row colGroupId == some id)
        = none from h3]
    simp [hkey, h1, GroupDaoSqlite.toBo]

/-- C10 checked concretely: after creating id "A" in an empty store,
Get("A") returns nil. -/
theorem getMissesNonNormalizedId_witness :
    groupStoreGet (GroupDaoSqlite.Create [] "A" "g").1 "A" = none :=
  getMissesNonNormalizedId [] "A" "g" (by decide) (by decide)

/-- The database produced by bootstrapping the empty store. -/
def bootstrappedDB : DB :=
  { groups := [[("gid", "system"), ("gname", "System User Group")]]
    users := [[("uname", "admin"), ("upwd", encryptPassword "admin" "s3cr3t"),
               ("display_name", "Administrator"), ("gid", "system")]] }

/-- The admin user as seeded by bootstrap. -/
def adminSeedUser : User :=
  { Username := "admin", Password := encryptPassword "admin" "s3cr3t",
    Name := "Administrator", GroupId := "system" }

/-- C2: after the bootstrap reconciler completes normally against the
initially empty store, GroupDao.Get(SystemGroupId) returns a group,
UserDao.Get(AdminUserUsernname) returns a user, and that user belongs to
the system group. -/
theorem bootstrapEstablishesEntities :
    ∃ db : DB,
      initDaos sqliteGroupDao sqliteUserDao { groups := [], users := [] } = .ok db
      ∧ (∃ g, groupStoreGet db.groups SystemGroupId = some g)
      ∧ (∃ u, userStoreGet db.users AdminUserUsernname = some u
          ∧ u.GroupId = SystemGroupId) := by
  refine ⟨bootstrappedDB, by decide,
    ⟨{ Id := "system", Name := "System User Group" }, by decide⟩,
    ⟨adminSeedUser, by decide, by decide⟩⟩

/-- C3: the bootstrap reconciler is idempotent: whatever the DAO
implementations, when both fetches return the existing system group and
admin user, initDaos completes without error and returns the store state
unchanged (no creation is consulted, no write happens); in particular a
second run on an already-populated store returns it as is, adding no
rows. -/
theorem bootstrapIdempotent {σ : Type} (gdao : GroupDaoI σ) (udao : UserDaoI σ)
    (s : σ) (g : Group) (u : User)
    (hg : gdao.Get s SystemGroupId = (some g, none))
    (hu : udao.Get s AdminUserUsernname = (some u, none)) :
    initDaos gdao udao s = .ok s := by
  simp only [initDaos, hg, hu]

/-- Idempotence checked on the concrete bootstrapped store: a second run
returns it unchanged. -/
theorem bootstrapIdempotent_witness :
    initDaos sqliteGroupDao sqliteUserDao bootstrappedDB = .ok bootstrappedDB :=
  bootstrapIdempotent sqliteGroupDao sqliteUserDao bootstrappedDB
    { Id := "system", Name := "System User Group" } adminSeedUser
    (by decide) (by decide)

/-- A DAO pair on which every fetch finds nothing and every creation
reports no inserted row with no error. -/
def stubGroupDaoNoRow : GroupDaoI Unit where
  Get := fun _ _ => (none, none)
  Create := fun s _ _ => (s, false, none)

/-- User-side counterpart of stubGroupDaoNoRow. -/
def stubUserDaoNoRow : UserDaoI Unit where
  Get := fun _ _ => (none, none)
  Create := fun s _ _ _ _ => (s, false, none)

/-- C1 fails as stated: on a run where the system group is absent and its
creation does not succeed (Create reports no inserted row, with no
error), initDaos merely logs and returns normally instead of aborting. -/
theorem bootstrapAbort_counterexample :
    stubGroupDaoNoRow.Get () SystemGroupId = (none, none)
    ∧ stubGroupDaoNoRow.Create () SystemGroupId "System User Group"
        = ((), false, none)
    ∧ initDaos stubGroupDaoNoRow stubUserDaoNoRow () = .ok () := by
  decide

/-- C1 (amended): the process aborts whenever the creation of the missing
system group or admin user returns a non-nil error: a group-creation
error aborts, and a user-creation error aborts both when the system group
was already present and when it was just created without error. (A
creation returning false with a nil error is only logged.) -/
theorem bootstrapAbortsOnCreationError {σ : Type} (gdao : GroupDaoI σ)
    (udao : UserDaoI σ) (s s1 : σ) (r : Bool) (e : Err) :
    (gdao.Get s SystemGroupId = (none, none) →
      gdao.Create s SystemGroupId "System User Group" = (s1, r, some e) →
      initDaos gdao udao s
        = .aborted ("error while creating group [" ++ SystemGroupId ++ "]: " ++ e))
    ∧ (∀ g, gdao.Get s SystemGroupId = (some g, none) →
      udao.Get s AdminUserUsernname = (none, none) →
      udao.Create s AdminUserUsernname
          (encryptPassword AdminUserUsernname "s3cr3t") AdminUserName
          SystemGroupId = (s1, r, some e) →
      initDaos gdao udao s
        = .aborted ("error while creating user [" ++ AdminUserUsernname ++ "]: " ++ e))
    ∧ (gdao.Get s SystemGroupId = (none, none) →
      gdao.Create s SystemGroupId "System User Group" = (s1, r, none) →
      udao.Get s1 AdminUserUsernname = (none, none) →
      ∀ (s2 : σ) (r2 : Bool), udao.Create s1 AdminUserUsernname
          (encryptPassword AdminUserUsernname "s3cr3t") AdminUserName
          SystemGroupId = (s2, r2, some e) →
      initDaos gdao udao s
        = .aborted ("error while creating user [" ++ AdminUserUsernname ++ "]: " ++ e)) := by
  refine ⟨?_, ?_, ?_⟩
  · intro hget hcr
    simp only [initDaos, hget, hcr]
  · intro g hget huget hucr
    simp only [initDaos, hget, huget, hucr]
  · intro hget hcr huget s2 r2 hucr
    simp only [initDaos, hget, hcr, huget, hucr]

/-- A DAO pair whose creations fail with an error. -/
def stubGroupDaoCreateErr : GroupDaoI Unit where
  Get := fun _ _ => (none, none)
  Create := fun s _ _ => (s, false, some "disk full")

/-- The amended C1 checked concretely: a failing group creation aborts the
bootstrap with the corresponding panic message. -/
theorem bootstrapAbortsOnCreationError_witness :
    initDaos stubGroupDaoCreateErr stubUserDaoNoRow ()
      = .aborted ("error while creating group [" ++ SystemGroupId ++ "]: " ++ "disk full") :=
  (bootstrapAbortsOnCreationError stubGroupDaoCreateErr stubUserDaoNoRow
    () () false "disk full").1 rfl rfl

/-- A successful delete-group permission check never yields the system
group: the guard on the fetched group id rejects it. -/
theorem checkCpDeleteGroup_ok {cu : Option User × Option Err} {gid : String}
    {dbGroups : List Bag} {g : Group}
    (h : checkCpDeleteGroup cu gid dbGroups = .ok g) :
    g.Id ≠ SystemGroupId ∧ groupStoreGet dbGroups gid = some g := by
  unfold checkCpDeleteGroup at h
  obtain ⟨ou, oe⟩ := cu
  cases oe with
  | some e => simp at h
  | none =>
    cases ou with
    | none => simp at h
    | some cuu =>
      dsimp only at h
      by_cases hperm : cuu.GroupId ≠ SystemGroupId
      · rw [if_pos hperm] at h
        simp at h
      · rw [if_neg hperm] at h
        cases hget : groupStoreGet dbGroups gid with
        | none => rw [hget] at h; simp at h
        | some group =>
          rw [hget] at h
          dsimp only at h
          by_cases hsys : group.Id = SystemGroupId
          · rw [if_pos hsys] at h
            simp at h
          · rw [if_neg hsys] at h
            simp only [Except.ok.injEq] at h
            subst h
            exact ⟨hsys, rfl⟩

/-- C6: the system group is never deleted: when the fetched target group
carries the system group id (and the requester passes the permission
check), checkCpDeleteGroup returns the delete-system-group rejection; and
whenever the delete-submit handler does invoke GroupDao.Delete, the
deleted group id differs from SystemGroupId. -/
theorem systemGroupNeverDeleted (cu : Option User × Option Err)
    (gid : String) (db : DB) (u : User) (g : Group) :
    (cu = (some u, none) → u.GroupId = SystemGroupId →
      groupStoreGet db.groups gid = some g → g.Id = SystemGroupId →
      checkCpDeleteGroup cu gid db.groups
        = .error (myI18nText "error_delete_system_group" [gid]))
    ∧ ((actionCpDeleteGroupSubmit cu gid db).2 = some g →
      g.Id ≠ SystemGroupId) := by
  constructor
  · intro hcu hperm hget hsys
    subst hcu
    simp [checkCpDeleteGroup, hperm, hget, hsys]
  · intro h
    unfold actionCpDeleteGroupSubmit at h
    cases hc : checkCpDeleteGroup cu gid db.groups with
    | error e => rw [hc] at h; simp at h
    | ok g2 =>
      rw [hc] at h
      simp only [Option.some.injEq] at h
      subst h
      exact (checkCpDeleteGroup_ok hc).1

/-- The delete-system-group rejection observed concretely: an admin
requesting deletion of the system group gets the rejection message. -/
theorem systemGroupNeverDeleted_witness :
    checkCpDeleteGroup (some adminSeedUser, none) "system"
        bootstrappedDB.groups
      = .error (myI18nText "error_delete_system_group" ["system"]) :=
  (systemGroupNeverDeleted (some adminSeedUser, none) "system" bootstrappedDB
    adminSeedUser { Id := "system", Name := "System User Group" }).1
    rfl (by decide) (by decide) (by decide)

/-- Shape of a user-table row as written by the user DAO: the four user
columns in order. -/
def userRowWF (row : Bag) : Prop :=
  ∃ a b c d, row = [(colUserUsername, a), (colUserPassword, b),
    (colUserName, c), (colUserGroupId, d)]

/-- A user fetched by key from a well-formed user table carries exactly
the looked-up username. -/
theorem userStoreGet_username {store : List Bag} {username : String}
    {u : User} (hwf : ∀ row ∈ store, userRowWF row)
    (h : userStoreGet store username = some u) : u.Username = username := by
  unfold userStoreGet at h
  cases hf : gdaoFetchOne store colUserUsername username with
  | none => rw [hf] at h; simp at h
  | some row =>
    rw [hf] at h
    have hu : UserDaoSqlite.toBoCore (translateRow mapColNameToFieldUser row)
        = u := by
      simpa using h
    have hfind : store.find?
        (fun r => gboGetAttr r colUserUsername == some username) = some row := hf
    have hp := List.find?_some hfind
    have hm := List.mem_of_find?_eq_some hfind
    obtain ⟨a, b0, c0, d0, hrow⟩ := hwf row hm
    subst hrow
    have ha : a = username := by
      simpa [gboGetAttr, colUserUsername] using hp
    subst ha
    rw [← hu]
    simp [UserDaoSqlite.toBoCore, translateRow, lookupStr,
      mapColNameToFieldUser, gboGetAttr, colUserUsername, colUserPassword,
      colUserName, colUserGroupId, fieldUserUsername, fieldUserPassword,
      fieldUserName, fieldUserGroupId]

/-- A successful delete-user permission check implies the targeted
username is not the admin username and the checked user is the fetched
one. -/
theorem checkCpDeleteUser_ok {cu : Option User × Option Err}
    {username : String} {dbUsers : List Bag} {u2 : User}
    (h : checkCpDeleteUser cu username dbUsers = .ok u2) :
    username ≠ AdminUserUsernname ∧ userStoreGet dbUsers username = some u2 := by
  unfold checkCpDeleteUser at h
  obtain ⟨ou, oe⟩ := cu
  cases oe with
  | some e => simp at h
  | none =>
    cases ou with
    | none => simp at h
    | some cuu =>
      dsimp only at h
      by_cases hperm : cuu.GroupId ≠ SystemGroupId
      · rw [if_pos hperm] at h
        simp at h
      · rw [if_neg hperm] at h
        cases hget : userStoreGet dbUsers username with
        | none => rw [hget] at h; simp at h
        | some user =>
          rw [hget] at h
          dsimp only at h
          by_cases hadm : username = AdminUserUsernname
          · rw [if_pos hadm] at h
            simp at h
          · rw [if_neg hadm] at h
            simp only [Except.ok.injEq] at h
            subst h
            exact ⟨hadm, rfl⟩

/-- C7: the admin account is protected: the change-password flow rejects
the admin user with the fixed error message and performs no update; any
user it does pass to Update is not the admin; the delete-user flow
performs no delete when the targeted username is the admin username; and
over a well-formed user table, any user passed to UserDao.Delete is not
the admin user. -/
theorem adminUserProtected (cu : Option User × Option Err) (form : PwForm)
    (username : String) (db : DB) (u : User) :
    (cu = (some u, none) → u.Username = AdminUserUsernname →
      actionCpChangePasswordSubmit cu form
        = .rendered "Cannot change system admin account\x27s password" none)
    ∧ (∀ (m : String) (u2 : User),
        actionCpChangePasswordSubmit cu form = .rendered m (some u2) →
        u2.Username ≠ AdminUserUsernname)
    ∧ (username = AdminUserUsernname →
        (actionCpDeleteUserSubmit cu username db).2 = none)
    ∧ ((∀ row ∈ db.users, userRowWF row) → ∀ u2 : User,
        (actionCpDeleteUserSubmit cu username db).2 = some u2 →
        u2.Username ≠ AdminUserUsernname) := by
  refine ⟨?_, ?_, ?_, ?_⟩
  · intro hcu hadm
    subst hcu
    simp [actionCpChangePasswordSubmit, hadm]
  · intro m u2 h
    unfold actionCpChangePasswordSubmit at h
    obtain ⟨ou, oe⟩ := cu
    cases oe with
    | some e => simp at h
    | none =>
      cases ou with
      | none => simp at h
      | some cuu =>
        dsimp only at h
        by_cases hadm : cuu.Username = AdminUserUsernname
        · rw [if_pos hadm] at h
          simp at h
        · rw [if_neg hadm] at h
          by_cases hpw : encryptPassword cuu.Username (strTrim form.currentPassword)
              ≠ cuu.Password
          · rw [if_pos hpw] at h
            simp at h
          · rw [if_neg hpw] at h
            by_cases hempty : strTrim form.password = ""
            · rw [if_pos hempty] at h
              simp at h
            · rw [if_neg hempty] at h
              by_cases hmm : strTrim form.password ≠ strTrim form.password2
              · rw [if_pos hmm] at h
                simp at h
              · rw [if_neg hmm] at h
                simp only [ChangePwOutcome.rendered.injEq, Option.some.injEq] at h
                rw [← h.2]
                exact hadm
  · intro hadm
    unfold actionCpDeleteUserSubmit
    cases hc : checkCpDeleteUser cu username db.users with
    | error e => rfl
    | ok u2 => exact absurd hadm (checkCpDeleteUser_ok hc).1
  · intro hwf u2 h
    unfold actionCpDeleteUserSubmit at h
    cases hc : checkCpDeleteUser cu username db.users with
    | error e => rw [hc] at h; simp at h
    | ok u3 =>
      rw [hc] at h
      simp only [Option.some.injEq] at h
      subst h
      have ⟨hne, hget⟩ := checkCpDeleteUser_ok hc
      rw [userStoreGet_username hwf hget]
      exact hne

/-- The admin protections observed concretely: the change-password flow
rejects the admin session with the fixed message and no update. -/
theorem adminUserProtected_witness :
    actionCpChangePasswordSubmit (some adminSeedUser, none)
        { currentPassword := "x", password := "y", password2 := "y" }
      = .rendered "Cannot change system admin account\x27s password" none :=
  (adminUserProtected (some adminSeedUser, none)
    { currentPassword := "x", password := "y", password2 := "y" }
    "admin" bootstrappedDB adminSeedUser).1 rfl (by decide)

end Myapp
